import Mathlib

/-
Verification of the Modbus RTU serial server core
(src/umodbus/server/serial/__init__.py) against its specification.

Bytes are modelled as Nat, byte strings as List Nat. Python exceptions are
modelled by an explicit result type: a call either returns a value or fails
with an exception value. Modules of the repository that are imported by the
serial server but whose source is not present under src/ (umodbus.route,
umodbus.functions, umodbus.utils, umodbus.exceptions, and the concrete
RTUServer.serve_once) are modelled from the spec; each such definition says
so in its doc comment.
-/

namespace UModbus

/-- Kinds of Python exception values relevant to the serial server core:
a ModbusError carrying its numeric error code, a TypeError, and any other
exception (struct.error, handler faults, transport faults, ...). -/
inductive Exc where
  | modbus (error_code : Nat)
  | typeError
  | other
deriving DecidableEq, Repr

/-- Result of a Python call: a value, or a raised exception. -/
inductive Res (α : Type) where
  | ok (a : α)
  | exc (e : Exc)
deriving DecidableEq, Repr

/-- Whether an exception value is a ModbusError (would be caught by an
except ModbusError clause). -/
def Exc.is_modbus : Exc → Bool
  | .modbus _ => true
  | _ => false

/-- Log entries emitted by the server core: log.error on CRCError in
serve_forever, log.exception in execute_route, log.debug in respond. -/
inductive LogEntry where
  | error
  | exception
  | debug
deriving DecidableEq, Repr

/-- AbstractSerialServer.get_meta_data (src lines 56-65): unit_id is
struct.unpack of the first byte of the request ADU; struct.unpack raises on
an empty input, hence Option. -/
def get_meta_data (request_adu : List Nat) : Option Nat :=
  request_adu.head?

/-- AbstractSerialServer.get_request_pdu (src lines 67-73): the Python
slice request_adu[1:-2], i.e. everything after the first byte and before
the last two bytes, empty when the ADU has fewer than 4 bytes. -/
def get_request_pdu (request_adu : List Nat) : List Nat :=
  (request_adu.drop 1).take (request_adu.length - 3)

/-- Modelled from the spec: pack_exception_pdu of umodbus.utils is not
under src/; the spec gives the exception PDU as the two bytes
function_code bitwise-or 0x80 followed by the exception code. -/
def pack_exception_pdu (function_code error_code : Nat) : List Nat :=
  [Nat.lor function_code 0x80, error_code]

/-- Modelled from the spec: get_function_code_from_request_pdu of
umodbus.utils is not under src/; the function code is the first byte of the
PDU, and extraction fails (struct unpacking) on an empty PDU. -/
def get_function_code_from_request_pdu (request_pdu : List Nat) : Res Nat :=
  match request_pdu.head? with
  | some fc => .ok fc
  | none => .exc .other

/-- Modelled from the spec: ServerDeviceFailureError of umodbus.exceptions
is not under src/; the spec gives ServerDeviceFailure the exception
code 4. -/
def serverDeviceFailure_error_code : Nat := 4

/-- The results value a Modbus function object's execute returns: a list of
read values, or none for functions whose execute returns no results. -/
def Results : Type := Option (List Nat)

/-- Modelled from the spec: the function object produced by
create_function_from_request_pdu (umodbus.functions, not under src/),
abstracted to the three behaviors execute_route uses: execute with the
unit id (the route map and registered handlers are folded into the
behavior), create_response_pdu applied to the results, and
create_response_pdu applied to no argument. -/
structure MFun where
  executeRes : Nat → Res Results
  crpWith : Results → Res (List Nat)
  crpNoArgs : Res (List Nat)

/-- Modelled from the spec: create_function_from_request_pdu
(umodbus.functions, not under src/) fails with ProtocolError
IllegalFunction (error code 1) when the function code is not one of the
eight supported values 1,2,3,4,5,6,15,16; decoding of a supported request
is supplied by the behavior parameter impl; an empty PDU fails with a
non-Modbus exception. -/
def create_function_from_request_pdu (impl : List Nat → Res MFun)
    (request_pdu : List Nat) : Res MFun :=
  match request_pdu.head? with
  | none => .exc .other
  | some fc =>
    if ([1, 2, 3, 4, 5, 6, 15, 16] : List Nat).contains fc then
      impl request_pdu
    else
      .exc (.modbus 1)

/-- The try block of AbstractSerialServer.execute_route (src lines
111-122): create the function from the request PDU, execute it, then call
create_response_pdu with the results, retrying with no argument exactly
when that call raises TypeError. Any exception raised in this block
escapes to the except clauses of execute_route. -/
def execute_route_body (impl : List Nat → Res MFun) (unit_id : Nat)
    (request_pdu : List Nat) : Res (List Nat) :=
  match create_function_from_request_pdu impl request_pdu with
  | .exc e => .exc e
  | .ok f =>
    match f.executeRes unit_id with
    | .exc e => .exc e
    | .ok results =>
      match f.crpWith results with
      | .ok pdu => .ok pdu
      | .exc .typeError => f.crpNoArgs
      | .exc e => .exc e

/-- AbstractSerialServer.execute_route (src lines 102-131): run the try
block; on ModbusError return the exception PDU with the errors code; on
any other exception call log.exception and return the exception PDU with
the ServerDeviceFailure code. The function code for the exception PDU is
re-read from the request PDU inside each except clause, so that read can
itself raise and propagate. Returns the result paired with the log entries
emitted. -/
def execute_route (impl : List Nat → Res MFun) (unit_id : Nat)
    (request_pdu : List Nat) : Res (List Nat) × List LogEntry :=
  match execute_route_body impl unit_id request_pdu with
  | .ok pdu => (.ok pdu, [])
  | .exc (.modbus code) =>
    (match get_function_code_from_request_pdu request_pdu with
     | .ok fc => (.ok (pack_exception_pdu fc code), [])
     | .exc e => (.exc e, []))
  | .exc _ =>
    (match get_function_code_from_request_pdu request_pdu with
     | .ok fc =>
       (.ok (pack_exception_pdu fc serverDeviceFailure_error_code),
        [LogEntry.exception])
     | .exc e => (.exc e, [LogEntry.exception]))

/-- Modelled from the spec: a rule of umodbus.route.Map (not under src/):
a bound endpoint together with three optional filter collections; a filter
left as none is the omitted (wildcard) filter. -/
structure Rule (α : Type) where
  endpoint : α
  slave_ids : Option (List Nat)
  function_codes : Option (List Nat)
  addresses : Option (List Nat)
deriving DecidableEq, Repr

/-- Modelled from the spec: umodbus.route.Map (not under src/), an ordered
collection of rules, insertion order preserved. -/
structure Map (α : Type) where
  rules : List (Rule α)
deriving DecidableEq, Repr

/-- Modelled from the spec: Map.add_rule appends one rule built from the
endpoint and the three filters. -/
def Map.add_rule (m : Map α) (endpoint : α)
    (slave_ids function_codes addresses : Option (List Nat)) : Map α :=
  { rules := m.rules ++ [⟨endpoint, slave_ids, function_codes, addresses⟩] }

/-- Modelled from the spec: an omitted (none) filter matches any value; a
concrete filter matches exactly the listed values. -/
def filterMatches (filter : Option (List Nat)) (v : Nat) : Bool :=
  match filter with
  | none => true
  | some vs => vs.contains v

/-- Modelled from the spec: a rule matches a (slave id, function code,
address) triple when all three of its filters match. -/
def Rule.matches (r : Rule α) (slave_id function_code address : Nat) : Bool :=
  filterMatches r.slave_ids slave_id
    && filterMatches r.function_codes function_code
    && filterMatches r.addresses address

/-- Modelled from the spec: Map matching scans the rules in insertion
order and returns the endpoint of the first rule whose three filters all
match, or none when no rule matches. -/
def Map.match_rule (m : Map α) (slave_id function_code address : Nat) :
    Option α :=
  (m.rules.find? (fun r => r.matches slave_id function_code address)).map
    Rule.endpoint

/-- The server state the serial server core mutates: the route map set up
by get_server and the shutdown flag (Python attribute _shutdown_request,
initially False). The serial port is an external collaborator and carries
no modelled state. -/
structure Server (α : Type) where
  route_map : Map α
  shutdown_request : Bool
deriving DecidableEq, Repr

/-- AbstractSerialServer.route (src lines 35-53): the decorator registers
the handler f with the three optional filters via route_map.add_rule and
returns f itself. Omitting an argument in Python (default None) is passing
none here. Returns the updated server state paired with the decorators
return value. -/
def Server.route (s : Server α)
    (slave_ids function_codes addresses : Option (List Nat)) (f : α) :
    Server α × α :=
  ({ s with
      route_map := s.route_map.add_rule f slave_ids function_codes addresses },
   f)

/-- AbstractSerialServer.shutdown (src lines 141-142): sets the shutdown
flag. -/
def Server.shutdown (s : Server α) : Server α :=
  { s with shutdown_request := true }

/-- Modelled from the spec: the observable outcome of one serve_once call
(RTUServer.serve_once is not under src/). Either the iteration completes,
having written a response (some bytes) or nothing (a frame not addressed
to this unit writes nothing); or serve_once raises CRCError, which per the
spec happens on checksum failure before any response is written; or
serve_once raises some exception that is not a CRCError (for example a
transport fault). -/
inductive IterOutcome where
  | ok (response : Option (List Nat))
  | crcError
  | otherError
deriving DecidableEq, Repr

/-- One scripted Serve Loop iteration: the serve_once outcome, and whether
shutdown() is called (setting the shutdown flag) while this iteration is
in flight. -/
structure Iter where
  outcome : IterOutcome
  set_shutdown : Bool
deriving DecidableEq, Repr

/-- How a run of serve_forever ended: the while condition observed the
shutdown flag; an exception propagated out of serve_forever; or the
scripted iterations ran out with the loop still waiting for frames. -/
inductive ExitCause where
  | shutdown
  | unhandled
  | pending
deriving DecidableEq, Repr

/-- The observable trace of a serve_forever run: how many iterations
began, the responses written in order, the log entries emitted by
serve_forever itself, and how the run ended. -/
structure ServeTrace where
  executed : Nat
  written : List (List Nat)
  logs : List LogEntry
  exit : ExitCause
deriving DecidableEq, Repr

/-- AbstractSerialServer.serve_forever (src lines 79-86): while the
shutdown flag is unset, run serve_once; a CRCError is caught and logged
with log.error and the loop continues; any other exception propagates and
ends the loop. The flag is read once per iteration boundary, so a
shutdown() during an iteration takes effect at the next boundary. The
iterations are scripted by the list; flag is the value of the shutdown
flag when the loop is entered. -/
def serve_forever (flag : Bool) : List Iter → ServeTrace
  | [] => if flag then ⟨0, [], [], .shutdown⟩ else ⟨0, [], [], .pending⟩
  | i :: rest =>
    if flag then ⟨0, [], [], .shutdown⟩
    else
      match i.outcome with
      | .ok response =>
        let t := serve_forever i.set_shutdown rest
        ⟨t.executed + 1, response.toList ++ t.written, t.logs, t.exit⟩
      | .crcError =>
        let t := serve_forever i.set_shutdown rest
        ⟨t.executed + 1, t.written, LogEntry.error :: t.logs, t.exit⟩
      | .otherError => ⟨1, [], [], .unhandled⟩

end UModbus

namespace UModbus

/-- Claim C4: for every request ADU of length at least 4, decoding yields
a unit id equal to the first byte of the ADU and a PDU equal to the bytes
from index 1 up to but excluding the last 2 checksum bytes. -/
theorem spec_C4 (b : Nat) (rest : List Nat) (h : 4 ≤ (b :: rest).length) :
    get_meta_data (b :: rest) = some b ∧
    get_request_pdu (b :: rest) =
      ((b :: rest).take ((b :: rest).length - 2)).drop 1 := by
  refine ⟨rfl, ?_⟩
  simp only [get_request_pdu, List.length_cons, List.drop_succ_cons,
    List.drop_zero]
  have h2 : rest.length + 1 - 2 = (rest.length - 2) + 1 := by
    simp only [List.length_cons] at h; omega
  have h3 : rest.length + 1 - 3 = rest.length - 2 := by omega
  rw [h2, h3, List.take_succ_cons, List.drop_succ_cons, List.drop_zero]

/-- Witness for C4 at the concrete 5-byte ADU 1,2,3,4,5. -/
theorem spec_C4_witness :
    get_meta_data [1, 2, 3, 4, 5] = some 1 ∧
    get_request_pdu [1, 2, 3, 4, 5] =
      (([1, 2, 3, 4, 5] : List Nat).take
        (([1, 2, 3, 4, 5] : List Nat).length - 2)).drop 1 :=
  spec_C4 1 [2, 3, 4, 5] (by decide)

/-- Counterexample to claim C3: decoding the 3-byte frame 1,2,3 does not
fail at all; it produces unit id 1 and an empty PDU, exactly what the
claim says cannot happen. No TooShort check exists in get_meta_data or
get_request_pdu. -/
theorem spec_C3_counterexample :
    get_meta_data [1, 2, 3] = some 1 ∧ get_request_pdu [1, 2, 3] = [] :=
  ⟨rfl, rfl⟩

/-- Claim C3 as amended: for every nonempty raw frame with fewer than 4
bytes, decoding succeeds, yielding unit id equal to the first byte and an
empty PDU; there is no TooShort framing error in the code. -/
theorem spec_C3_amended (b : Nat) (rest : List Nat)
    (h : (b :: rest).length < 4) :
    get_meta_data (b :: rest) = some b ∧
    get_request_pdu (b :: rest) = [] := by
  refine ⟨rfl, ?_⟩
  simp only [get_request_pdu, List.length_cons, List.drop_succ_cons]
  have h0 : rest.length + 1 - 3 = 0 := by
    simp only [List.length_cons] at h; omega
  rw [h0, List.take_zero]

/-- Witness for the amended C3 at the concrete 2-byte frame 7,8. -/
theorem spec_C3_amended_witness :
    get_meta_data [7, 8] = some 7 ∧ get_request_pdu [7, 8] = [] :=
  spec_C3_amended 7 [8] (by decide)

end UModbus

namespace UModbus

/-- Claim C8: registering a handler through the route decorator appends a
rule carrying the given filters, and a filter passed as none (the Python
default when the argument is omitted) is a wildcard: it matches every
value of its field, so a rule with all three filters omitted matches every
triple. -/
theorem spec_C8 {α : Type} (srv : Server α) (f : α)
    (sl fcs ads : Option (List Nat)) (slave fc addr : Nat) :
    ((srv.route none none none f).1.route_map.rules.getLast? =
        some ⟨f, none, none, none⟩)
    ∧ Rule.matches ⟨f, none, none, none⟩ slave fc addr = true
    ∧ Rule.matches ⟨f, none, fcs, ads⟩ slave fc addr =
        (filterMatches fcs fc && filterMatches ads addr)
    ∧ Rule.matches ⟨f, sl, none, ads⟩ slave fc addr =
        (filterMatches sl slave && filterMatches ads addr)
    ∧ Rule.matches ⟨f, sl, fcs, none⟩ slave fc addr =
        (filterMatches sl slave && filterMatches fcs fc) := by
  refine ⟨?_, rfl, ?_, ?_, ?_⟩
  · simp [Server.route, Map.add_rule]
  · simp [Rule.matches, filterMatches]
  · simp [Rule.matches, filterMatches]
  · simp [Rule.matches, filterMatches]

/-- Claim C10: applying the route decorator returns the handler f itself
unchanged, and its only effect on the server state is appending exactly
one rule binding f to the route map; the shutdown flag is untouched. -/
theorem spec_C10 {α : Type} (srv : Server α) (f : α)
    (sl fcs ads : Option (List Nat)) :
    (srv.route sl fcs ads f).2 = f
    ∧ (srv.route sl fcs ads f).1.route_map.rules =
        srv.route_map.rules ++ [⟨f, sl, fcs, ads⟩]
    ∧ (srv.route sl fcs ads f).1.shutdown_request = srv.shutdown_request :=
  ⟨rfl, rfl, rfl⟩

/-- Claim C5: whenever the dispatch stage of execute_route raises a
ModbusError with some error code, execute_route returns the two-byte
exception PDU with the request function code bitwise-or 0x80 and that
code, and logs nothing; in particular a request with the unsupported
function code 99 yields the PDU 99 bitwise-or 0x80 followed by 1
(IllegalFunction), whatever the rest of the request and the registered
handlers. -/
theorem spec_C5 :
    (∀ (impl : List Nat → Res MFun) (unit_id fc : Nat) (rest : List Nat)
        (code : Nat),
        execute_route_body impl unit_id (fc :: rest) =
          Res.exc (Exc.modbus code) →
        execute_route impl unit_id (fc :: rest) =
          (Res.ok [Nat.lor fc 0x80, code], []))
    ∧ (∀ (impl : List Nat → Res MFun) (unit_id : Nat) (rest : List Nat),
        execute_route impl unit_id (99 :: rest) =
          (Res.ok [Nat.lor 99 0x80, 1], [])) := by
  constructor
  · intro impl unit_id fc rest code hbody
    simp [execute_route, hbody, get_function_code_from_request_pdu,
      pack_exception_pdu]
  · intro impl unit_id rest
    have hbody : execute_route_body impl unit_id (99 :: rest) =
        Res.exc (Exc.modbus 1) := rfl
    simp [execute_route, hbody, get_function_code_from_request_pdu,
      pack_exception_pdu]

/-- Witness for C5: a read-holding-registers request whose execute raises
ModbusError code 2, and a request with function code 99. -/
theorem spec_C5_witness :
    execute_route
      (fun _ => Res.ok
        (MFun.mk (fun _ => Res.exc (Exc.modbus 2))
          (fun _ => Res.exc Exc.other) (Res.exc Exc.other)))
      1 [3, 0, 0, 0, 2] = (Res.ok [Nat.lor 3 0x80, 2], [])
    ∧ execute_route (fun _ => Res.exc Exc.other) 1 [99, 0] =
        (Res.ok [Nat.lor 99 0x80, 1], []) :=
  ⟨spec_C5.1 _ 1 3 [0, 0, 0, 2] 2 rfl, spec_C5.2 _ 1 [0]⟩

/-- Claim C2: when the try block of execute_route raises any exception
that is not a ModbusError (an unexpected handler fault among them),
execute_route logs it and returns the exception PDU carrying the
ServerDeviceFailure error code; the fault is not propagated to the
caller. -/
theorem spec_C2 (impl : List Nat → Res MFun) (unit_id fc : Nat)
    (rest : List Nat) (e : Exc)
    (hbody : execute_route_body impl unit_id (fc :: rest) = Res.exc e)
    (hnm : e.is_modbus = false) :
    execute_route impl unit_id (fc :: rest) =
      (Res.ok [Nat.lor fc 0x80, serverDeviceFailure_error_code],
       [LogEntry.exception]) := by
  cases e with
  | modbus code => simp [Exc.is_modbus] at hnm
  | typeError =>
    simp [execute_route, hbody, get_function_code_from_request_pdu,
      pack_exception_pdu]
  | other =>
    simp [execute_route, hbody, get_function_code_from_request_pdu,
      pack_exception_pdu]

/-- Witness for C2: a write-single-register request whose execute raises a
non-Modbus fault yields the ServerDeviceFailure exception PDU and one
log.exception entry. -/
theorem spec_C2_witness :
    execute_route
      (fun _ => Res.ok
        (MFun.mk (fun _ => Res.exc Exc.other) (fun _ => Res.ok [])
          (Res.ok [])))
      1 [6, 0, 0, 0, 1] =
      (Res.ok [Nat.lor 6 0x80, serverDeviceFailure_error_code],
       [LogEntry.exception]) :=
  spec_C2 _ 1 6 [0, 0, 0, 1] Exc.other rfl rfl

/-- Claim C9: execute_route first calls create_response_pdu with the
execute results; exactly when that call raises TypeError it retries with
no argument, so such a TypeError is masked by the retry rather than
reported as ServerDeviceFailure; a successful first call is returned as
is, and a non-TypeError failure of the first call is not retried but
handled as ServerDeviceFailure. -/
theorem spec_C9 (impl : List Nat → Res MFun) (unit_id fc : Nat)
    (rest : List Nat) (f : MFun) (results : Results)
    (hsupp : ([1, 2, 3, 4, 5, 6, 15, 16] : List Nat).contains fc = true)
    (himpl : impl (fc :: rest) = Res.ok f)
    (hexec : f.executeRes unit_id = Res.ok results) :
    (f.crpWith results = Res.exc Exc.typeError →
        execute_route_body impl unit_id (fc :: rest) = f.crpNoArgs)
    ∧ (∀ p, f.crpWith results = Res.ok p →
        execute_route impl unit_id (fc :: rest) = (Res.ok p, []))
    ∧ (f.crpWith results = Res.exc Exc.other →
        execute_route impl unit_id (fc :: rest) =
          (Res.ok [Nat.lor fc 0x80, serverDeviceFailure_error_code],
           [LogEntry.exception])) := by
  have hcreate : create_function_from_request_pdu impl (fc :: rest) =
      Res.ok f := by
    simp only [create_function_from_request_pdu, List.head?_cons, hsupp,
      if_true, himpl]
  refine ⟨?_, ?_, ?_⟩
  · intro h
    simp [execute_route_body, hcreate, hexec, h]
  · intro p h
    simp [execute_route, execute_route_body, hcreate, hexec, h]
  · intro h
    simp [execute_route, execute_route_body, hcreate, hexec, h,
      get_function_code_from_request_pdu, pack_exception_pdu]

/-- Witness for C9: a read function whose create_response_pdu raises
TypeError on the results is retried with no argument and its value is
returned. -/
theorem spec_C9_witness :
    execute_route_body
      (fun _ => Res.ok
        (MFun.mk (fun _ => Res.ok (some [1]))
          (fun _ => Res.exc Exc.typeError) (Res.ok [3, 2, 1])))
      1 [3, 0, 0, 0, 1] = Res.ok [3, 2, 1] :=
  (spec_C9 _ 1 3 [0, 0, 0, 1]
      (MFun.mk (fun _ => Res.ok (some [1]))
        (fun _ => Res.exc Exc.typeError) (Res.ok [3, 2, 1]))
      (some [1]) (by decide) rfl rfl).1 rfl

end UModbus

namespace UModbus

/-- Counterexample to claim C1: a single iteration in which serve_once
raises an exception that is not a CRCError ends serve_forever by
exception propagation, not by the shutdown flag, which was never set. -/
theorem spec_C1_counterexample :
    (serve_forever false [⟨IterOutcome.otherError, false⟩]).exit =
      ExitCause.unhandled
    ∧ ExitCause.unhandled ≠ ExitCause.shutdown :=
  ⟨rfl, by decide⟩

/-- Claim C1 as amended: as long as no iteration raises an exception other
than CRCError, serve_forever never exits by exception propagation: it
exits only when the while condition observes the shutdown flag (or the
scripted run is still pending); CRCError iterations in particular never
end the loop. An exception that is not a CRCError, however, does
propagate and ends serve_forever. -/
theorem spec_C1_amended (flag : Bool) (iters : List Iter)
    (h : ∀ i ∈ iters, i.outcome ≠ IterOutcome.otherError) :
    (serve_forever flag iters).exit = ExitCause.shutdown
    ∨ (serve_forever flag iters).exit = ExitCause.pending := by
  induction iters generalizing flag with
  | nil => cases flag <;> simp [serve_forever]
  | cons i rest ih =>
    cases flag with
    | true => simp [serve_forever]
    | false =>
      have hi : i.outcome ≠ IterOutcome.otherError :=
        h i (List.mem_cons_self i rest)
      have hrest : ∀ j ∈ rest, j.outcome ≠ IterOutcome.otherError :=
        fun j hj => h j (List.mem_cons_of_mem i hj)
      cases ho : i.outcome with
      | ok response =>
        have := ih i.set_shutdown hrest
        simpa [serve_forever, ho] using this
      | crcError =>
        have := ih i.set_shutdown hrest
        simpa [serve_forever, ho] using this
      | otherError => exact absurd ho hi

/-- Witness for the amended C1: one CRCError iteration that also sets the
shutdown flag ends the loop via the shutdown flag. -/
theorem spec_C1_amended_witness :
    (serve_forever false [⟨IterOutcome.crcError, true⟩]).exit =
      ExitCause.shutdown
    ∨ (serve_forever false [⟨IterOutcome.crcError, true⟩]).exit =
      ExitCause.pending :=
  spec_C1_amended false [⟨IterOutcome.crcError, true⟩] (by decide)

/-- Claim C6: an iteration whose serve_once raises CRCError adds one
log.error entry and writes no outbound bytes, and the loop proceeds to
the remaining iterations exactly as it would have without this one. -/
theorem spec_C6 (rest : List Iter) :
    serve_forever false (⟨IterOutcome.crcError, false⟩ :: rest) =
      { executed := (serve_forever false rest).executed + 1,
        written := (serve_forever false rest).written,
        logs := LogEntry.error :: (serve_forever false rest).logs,
        exit := (serve_forever false rest).exit } :=
  rfl

/-- Claim C7: when shutdown() is called during iteration N, iteration N
runs to completion and its response (if any) is written, and no iteration
N+1 begins: the loop exits at the next iteration boundary via the
shutdown flag, whatever iterations were still scripted. -/
theorem spec_C7 (response : Option (List Nat)) (rest : List Iter) :
    (serve_forever false (⟨IterOutcome.ok response, true⟩ :: rest)).executed
        = 1
    ∧ (serve_forever false (⟨IterOutcome.ok response, true⟩ :: rest)).written
        = response.toList
    ∧ (serve_forever false (⟨IterOutcome.ok response, true⟩ :: rest)).exit
        = ExitCause.shutdown := by
  have hstop : serve_forever true rest = ⟨0, [], [], ExitCause.shutdown⟩ := by
    cases rest <;> rfl
  refine ⟨?_, ?_, ?_⟩ <;> simp [serve_forever, hstop]

end UModbus
